import Mathlib

/-!
Verification development for the Covu marketplace order/escrow/wallet core.

The definitions below are a shallow embedding of the Python source:

* `wallets/models.py` — `Wallet` (active flag, derived `balance`, `can_debit`),
  `WalletTransaction` (immutable ledger rows with a unique `reference`);
* `orders/models.py` — `Order` (status, snapshot amounts, `order_number`);
* `escrow/models.py` — `EscrowTransaction` (HELD / RELEASED / REFUNDED);
* `orders/services.py` — `OrderService.create_order / accept_order /
  deliver_order / confirm_order / cancel_order`;
* `orders/views.py` — `OrderViewSet.cancel` (actor resolution);
* `wallets/views.py` — `PaystackWebhookView.post` (charge.success branch);
* `notifications/services.py` — `NotificationService` dispatch.

Monetary values are `DecimalField(decimal_places=2)` in the source; they are
modelled as `Int` numbers of kobo (hundredths of a naira), which makes every
sum and comparison exact, as in the source's fixed-point decimals.

Database writes inside `@transaction.atomic` either all commit or all roll
back; this is modelled by operations of type `Except Err DB`: an `.error`
outcome carries no state, so the caller keeps the pre-call state, exactly the
rollback semantics.  Uniqueness constraints (`WalletTransaction.reference`,
primary keys, the one-escrow-per-order `OneToOneField`) are enforced by the
insert helpers, which fail with `Err.integrityError` the way the database
makes Django raise `IntegrityError`.

Timestamp columns (`created_at`, `accepted_at`, ... ) and free-form metadata
are not modelled: no claim below mentions them, and they influence no branch
of the translated code.
-/

namespace Covu

/-- Transaction types of `WalletTransaction.TRANSACTION_TYPES`
(`wallets/models.py`). -/
inductive TxnType
  | CREDIT | DEBIT | ESCROW_HOLD | ESCROW_RELEASE | REFUND | WITHDRAWAL
deriving DecidableEq, BEq, Repr

/-- One row of the `wallet_transactions` table (`WalletTransaction`,
`wallets/models.py`): owning wallet id, type, amount, unique idempotency
reference, description, and the balance snapshots taken at insert time. -/
structure TxnRow where
  wallet : Nat
  txnType : TxnType
  amount : Int
  reference : String
  description : String
  balanceBefore : Int
  balanceAfter : Int
deriving DecidableEq, BEq, Repr

/-- Order statuses of `Order.STATUS_CHOICES` (`orders/models.py`). -/
inductive OrderStatus
  | PENDING | ACCEPTED | DELIVERED | CONFIRMED | CANCELLED
deriving DecidableEq, BEq, Repr

/-- The `cancelled_by` choices of `Order.CANCELLED_BY_CHOICES`. -/
inductive Party
  | BUYER | SELLER
deriving DecidableEq, BEq, Repr

/-- The fields of `CustomUser` that the order/escrow core reads: identity,
the 1:1 wallet (`user.wallet`), and the location used for the delivery-fee
tier in `OrderService.create_order`. -/
structure User where
  uid : Nat
  walletId : Nat
  city : String
  state : String
deriving DecidableEq, BEq, Repr

/-- The fields of `Store` (`stores/models.py`) read by
`OrderService.create_order`: the owning seller and the two wired delivery-fee
tiers. -/
structure Store where
  seller : User
  deliveryWithinLga : Int
  deliveryOutsideLga : Int
deriving DecidableEq, BEq, Repr

/-- The fields of `Product` (`products/models.py`) read by the order core. -/
structure Product where
  name : String
  price : Int
  store : Store
deriving DecidableEq, BEq, Repr

/-- One row of the `orders` table (`Order`, `orders/models.py`).  The buyer
and seller foreign keys are carried as the user records the service accesses
through them. -/
structure OrderRow where
  oid : Nat
  buyer : User
  seller : User
  productName : String
  productPrice : Int
  deliveryFee : Int
  totalAmount : Int
  deliveryAddress : String
  status : OrderStatus
  cancelledBy : Option Party
  cancellationReason : Option String
deriving DecidableEq, BEq, Repr

/-- The `Order.order_number` property (`orders/models.py`): a short display
form of the primary key (`str(self.id)[:8].upper()`); modelled as the decimal
rendering of the numeric id. -/
def OrderRow.orderNumber (o : OrderRow) : String :=
  toString o.oid

/-- Escrow statuses of `EscrowTransaction.STATUS_CHOICES`
(`escrow/models.py`). -/
inductive EscrowStatus
  | HELD | RELEASED | REFUNDED
deriving DecidableEq, BEq, Repr

/-- One row of the `escrow_transactions` table (`EscrowTransaction`,
`escrow/models.py`).  `orderId` is the `OneToOneField` to the order. -/
structure EscrowRow where
  orderId : Nat
  amount : Int
  status : EscrowStatus
  buyerWallet : Nat
  sellerWallet : Nat
  debitReference : String
  creditReference : Option String
  refundReference : Option String
deriving DecidableEq, BEq, Repr

/-- One row of the `wallets` table (`Wallet`, `wallets/models.py`): id and
the `is_active` freeze flag.  The balance is deliberately NOT a field — the
source computes it from the transaction log (see `balance`). -/
structure WalletRow where
  wid : Nat
  isActive : Bool
deriving DecidableEq, BEq, Repr

/-- One row of the notifications table (`Notification`,
`notifications/models.py`), as far as the dispatch logic writes it. -/
structure NotifRow where
  userId : Nat
  ntype : String
  orderId : Option Nat
deriving DecidableEq, BEq, Repr

/-- The database state the order/escrow/wallet core reads and writes. -/
structure DB where
  wallets : List WalletRow
  txns : List TxnRow
  orders : List OrderRow
  escrows : List EscrowRow
  notifs : List NotifRow
deriving DecidableEq, BEq, Repr

/-- The exception kinds the translated code can raise:
`InsufficientFundsError`, `InvalidOrderStatusError`, `PermissionDeniedError`
(`orders/services.py`), Python's `AttributeError`, Django's `IntegrityError`
(unique-constraint violation) and `DoesNotExist`.  The source defines no
escrow-state error kind. -/
inductive Err
  | insufficientFunds
  | invalidOrderStatus
  | permissionDenied
  | integrityError
  | attributeError
  | doesNotExist
deriving DecidableEq, BEq, Repr

/-! ### Ledger: derived balance (`Wallet.balance`, wallets/models.py) -/

/-- Membership test for the credit class used by `Wallet.balance`:
`transaction_type__in=["CREDIT", "ESCROW_RELEASE", "REFUND"]`. -/
def isCreditType : TxnType → Bool
  | .CREDIT | .ESCROW_RELEASE | .REFUND => true
  | _ => false

/-- Membership test for the debit class used by `Wallet.balance`:
`transaction_type__in=["DEBIT", "ESCROW_HOLD", "WITHDRAWAL"]`. -/
def isDebitType : TxnType → Bool
  | .DEBIT | .ESCROW_HOLD | .WITHDRAWAL => true
  | _ => false

/-- The credit aggregate of `Wallet.balance`: the `Sum("amount")` of the
wallet's transactions whose type is in the credit class (an empty aggregate
is `Decimal("0.00")`, matching the empty sum). -/
def creditsOf (l : List TxnRow) (w : Nat) : Int :=
  ((l.filter fun t => t.wallet == w && isCreditType t.txnType).map
    (fun t => t.amount)).sum

/-- The debit aggregate of `Wallet.balance`. -/
def debitsOf (l : List TxnRow) (w : Nat) : Int :=
  ((l.filter fun t => t.wallet == w && isDebitType t.txnType).map
    (fun t => t.amount)).sum

/-- `Wallet.balance` (wallets/models.py lines 59-77): computed on every read
as credits minus debits over the wallet's transaction rows; the wallet row
itself stores no balance. -/
def balance (s : DB) (w : Nat) : Int :=
  creditsOf s.txns w - debitsOf s.txns w

/-- `Wallet.can_debit` (wallets/models.py lines 79-81):
`self.balance >= amount and self.is_active`.  No call site exists anywhere in
the project. -/
def can_debit (s : DB) (w : WalletRow) (amount : Int) : Bool :=
  decide (balance s w.wid ≥ amount) && w.isActive

/-- `Order.can_seller_cancel` (orders/models.py lines 171-174):
`self.status in ["PENDING", "ACCEPTED", "DELIVERED"]`. -/
def can_seller_cancel (o : OrderRow) : Bool :=
  o.status == .PENDING || o.status == .ACCEPTED || o.status == .DELIVERED

/-- The signed value a single ledger row contributes to its wallet's
balance: positive for the credit class, negative for the debit class. -/
def signedAmount (t : TxnRow) : Int :=
  if isCreditType t.txnType then t.amount else -t.amount

/-- The signed sum of a wallet's full transaction history, the spec's
reference formulation of the derived balance. -/
def signedSum (l : List TxnRow) (w : Nat) : Int :=
  ((l.filter fun t => t.wallet == w).map signedAmount).sum

/-! ### Table helpers (Django ORM access paths) -/

/-- `WalletTransaction.objects.filter(reference=...).exists()`: does any
ledger row of ANY wallet carry this reference? -/
def referenceExists (s : DB) (r : String) : Bool :=
  s.txns.any fun t => t.reference == r

/-- Insertion into `wallet_transactions` (`WalletTransaction.objects.create`).
The `reference` column is `unique=True` (wallets/models.py lines 130-135), so
the database rejects a duplicate and Django raises `IntegrityError`. -/
def insertTxn (s : DB) (t : TxnRow) : Except Err DB :=
  if referenceExists s t.reference then .error .integrityError
  else .ok { s with txns := t :: s.txns }

/-- `Order.objects.get` by primary key (first match wins, as for a unique
key). -/
def findOrder (s : DB) (oid : Nat) : Option OrderRow :=
  s.orders.find? fun o => o.oid == oid

/-- `order.save()` after mutating fields: rewrite the row with this order's
primary key. -/
def updateOrder (s : DB) (o : OrderRow) : DB :=
  { s with orders := s.orders.map fun x => if x.oid == o.oid then o else x }

/-- Insertion into `orders` (`Order.objects.create`); the primary key is
unique. -/
def insertOrder (s : DB) (o : OrderRow) : Except Err DB :=
  if s.orders.any (fun x => x.oid == o.oid) then .error .integrityError
  else .ok { s with orders := o :: s.orders }

/-- The reverse `OneToOne` accessor `order.escrow`. -/
def findEscrow (s : DB) (oid : Nat) : Option EscrowRow :=
  s.escrows.find? fun e => e.orderId == oid

/-- `escrow.save()` after mutating fields. -/
def updateEscrow (s : DB) (e : EscrowRow) : DB :=
  { s with escrows := s.escrows.map fun x => if x.orderId == e.orderId then e else x }

/-- Insertion into `escrow_transactions` (`EscrowTransaction.objects.create`);
the `order` field is a `OneToOneField`, so a second escrow for the same order
violates the unique constraint. -/
def insertEscrow (s : DB) (e : EscrowRow) : Except Err DB :=
  if s.escrows.any (fun x => x.orderId == e.orderId) then .error .integrityError
  else .ok { s with escrows := e :: s.escrows }

/-! ### Notification dispatch (notifications/services.py) -/

/-- `NotificationService._create_and_send`: creates the `Notification` row,
then attempts delivery inside `try/except Exception` — every delivery error
is caught and logged, so the only state effect is the new row.
(`_send_via_email` additionally wraps both the async enqueue and its
synchronous fallback in their own `try/except`, so no send error escapes.) -/
def createAndSend (s : DB) (userId : Nat) (ntype : String) (oid : Option Nat) : DB :=
  { s with notifs := { userId := userId, ntype := ntype, orderId := oid } :: s.notifs }

/-- Message construction of
`NotificationService.send_order_created_notification`
(notifications/services.py line 58): the f-string reads
`order.delivery_message`, but `Order` (orders/models.py) defines only
`delivery_address` and no `delivery_message` field or property anywhere in
the project, so the attribute lookup raises `AttributeError` before the
notification row is created. -/
def orderCreatedMessage (_o : OrderRow) : Except Err String :=
  .error .attributeError

/-- `NotificationService.send_order_created_notification`: builds the
message (which raises, see `orderCreatedMessage`), then would call
`_create_and_send` for the seller. -/
def send_order_created_notification (s : DB) (seller : User) (o : OrderRow) :
    Except Err DB :=
  match orderCreatedMessage o with
  | .error e => .error e
  | .ok _ => .ok (createAndSend s seller.uid "ORDER_CREATED" (some o.oid))

/-- Message construction of the accepted / delivered / confirmed / cancelled
notifications (notifications/services.py): these f-strings read only
attributes that exist (`order.product.name`, `order.total_amount`,
`user.wallet.balance`, ... ), so construction succeeds. -/
def routineMessage (_o : OrderRow) : Except Err Unit :=
  .ok ()

/-! ### OrderService (orders/services.py) -/

/-- The delivery-fee tier of `OrderService.create_order` (lines 79-86):
same city and state as the seller → `store.delivery_within_lga`, otherwise
`store.delivery_outside_lga`. -/
def deliveryFeeFor (buyer : User) (store : Store) : Int :=
  if buyer.city == store.seller.city && buyer.state == store.seller.state then
    store.deliveryWithinLga
  else
    store.deliveryOutsideLga

/-- The financial steps 1-5 of `OrderService.create_order`
(orders/services.py lines 75-158): fee tier, total, balance validation,
buyer-wallet DEBIT row, `Order` row (PENDING), `EscrowTransaction` row
(HELD).  `orderNumberRef` stands for the generated
`ORD-<date>-<random>` string used as the debit's idempotency reference
(the randomness is an input of the model); `oid` is the fresh UUID drawn for
the order row.  Step 6, the notification dispatch, is `create_order`. -/
def create_order_financial (s : DB) (buyer : User) (product : Product)
    (deliveryAddress : String) (orderNumberRef : String) (oid : Nat) :
    Except Err (DB × OrderRow) :=
  let store := product.store
  let seller := store.seller
  let fee := deliveryFeeFor buyer store
  let total := product.price + fee
  let bal := balance s buyer.walletId
  if bal < total then .error .insufficientFunds
  else
    match insertTxn s
      { wallet := buyer.walletId
        txnType := .DEBIT
        amount := total
        reference := orderNumberRef
        description := "Payment for " ++ product.name
        balanceBefore := bal
        balanceAfter := bal - total } with
    | .error e => .error e
    | .ok s1 =>
      let order : OrderRow :=
        { oid := oid
          buyer := buyer
          seller := seller
          productName := product.name
          productPrice := product.price
          deliveryFee := fee
          totalAmount := total
          deliveryAddress := deliveryAddress
          status := .PENDING
          cancelledBy := none
          cancellationReason := none }
      match insertOrder s1 order with
      | .error e => .error e
      | .ok s2 =>
        match insertEscrow s2
          { orderId := oid
            amount := total
            status := .HELD
            buyerWallet := buyer.walletId
            sellerWallet := seller.walletId
            debitReference := orderNumberRef
            creditReference := none
            refundReference := none } with
        | .error e => .error e
        | .ok s3 => .ok (s3, order)

/-- `OrderService.create_order` in full (orders/services.py lines 50-163):
the financial steps followed by step 6,
`NotificationService.send_order_created_notification(seller, order)`, all
inside one `@transaction.atomic` scope — an exception anywhere rolls the
whole operation back. -/
def create_order (s : DB) (buyer : User) (product : Product)
    (deliveryAddress : String) (orderNumberRef : String) (oid : Nat) :
    Except Err (DB × OrderRow) :=
  match create_order_financial s buyer product deliveryAddress orderNumberRef oid with
  | .error e => .error e
  | .ok (s1, order) =>
    match send_order_created_notification s1 order.seller order with
    | .error e => .error e
    | .ok s2 => .ok (s2, order)

/-- `OrderService.accept_order` (orders/services.py lines 165-213), composed
with the view's load of the order by primary key: ownership check, PENDING
check, status update, buyer notification. -/
def accept_order (s : DB) (oid : Nat) (seller : User) : Except Err DB :=
  match findOrder s oid with
  | none => .error .doesNotExist
  | some order =>
    if order.seller ≠ seller then .error .permissionDenied
    else if order.status ≠ .PENDING then .error .invalidOrderStatus
    else
      let s1 := updateOrder s { order with status := .ACCEPTED }
      match routineMessage order with
      | .error e => .error e
      | .ok _ => .ok (createAndSend s1 order.buyer.uid "ORDER_ACCEPTED" (some oid))

/-- `OrderService.deliver_order` (orders/services.py lines 215-265):
ownership check, ACCEPTED check, status update, buyer notification. -/
def deliver_order (s : DB) (oid : Nat) (seller : User) : Except Err DB :=
  match findOrder s oid with
  | none => .error .doesNotExist
  | some order =>
    if order.seller ≠ seller then .error .permissionDenied
    else if order.status ≠ .ACCEPTED then .error .invalidOrderStatus
    else
      let s1 := updateOrder s { order with status := .DELIVERED }
      match routineMessage order with
      | .error e => .error e
      | .ok _ => .ok (createAndSend s1 order.buyer.uid "ORDER_DELIVERED" (some oid))

/-- `OrderService.confirm_order` (orders/services.py lines 267-353): buyer
ownership check, DELIVERED check, status update to CONFIRMED, seller-wallet
ESCROW_RELEASE row with reference `ESCROW_RELEASE_<order_number>`, escrow
flip to RELEASED, seller notification.  The source never reads the escrow's
own status. -/
def confirm_order (s : DB) (oid : Nat) (buyer : User) : Except Err DB :=
  match findOrder s oid with
  | none => .error .doesNotExist
  | some order =>
    if order.buyer ≠ buyer then .error .permissionDenied
    else if order.status ≠ .DELIVERED then .error .invalidOrderStatus
    else
      let s1 := updateOrder s { order with status := .CONFIRMED }
      let seller := order.seller
      let bal := balance s1 seller.walletId
      match insertTxn s1
        { wallet := seller.walletId
          txnType := .ESCROW_RELEASE
          amount := order.totalAmount
          reference := "ESCROW_RELEASE_" ++ order.orderNumber
          description := "Payment received for " ++ order.productName
          balanceBefore := bal
          balanceAfter := bal + order.totalAmount } with
      | .error e => .error e
      | .ok s2 =>
        match findEscrow s2 oid with
        | none => .error .doesNotExist
        | some escrow =>
          let s3 := updateEscrow s2
            { escrow with
                status := .RELEASED
                creditReference := some ("ESCROW_RELEASE_" ++ order.orderNumber) }
          match routineMessage order with
          | .error e => .error e
          | .ok _ => .ok (createAndSend s3 seller.uid "PAYMENT_RECEIVED" (some oid))

/-- `OrderService.cancel_order` (orders/services.py lines 355-460):
cancellation-rule validation (buyer: only while PENDING; seller: only
`status == "CONFIRMED"` is rejected — the source does NOT reject a seller
cancellation of an already CANCELLED order, unlike the model's own
`Order.can_seller_cancel`), status update to CANCELLED, buyer-wallet REFUND
row with reference `REFUND_<order_number>`, escrow flip to REFUNDED, and a
notification to each party.  The `cancelled_by` argument is typed, so the
source's `ValueError` branch for other strings is unrepresentable here. -/
def cancel_order (s : DB) (oid : Nat) (cancelledBy : Party) (reason : String) :
    Except Err DB :=
  match findOrder s oid with
  | none => .error .doesNotExist
  | some order =>
    let statusOk :=
      match cancelledBy with
      | .BUYER => order.status == .PENDING
      | .SELLER => order.status != .CONFIRMED
    if !statusOk then .error .invalidOrderStatus
    else
      let s1 := updateOrder s
        { order with
            status := .CANCELLED
            cancelledBy := some cancelledBy
            cancellationReason := some reason }
      let buyer := order.buyer
      let bal := balance s1 buyer.walletId
      match insertTxn s1
        { wallet := buyer.walletId
          txnType := .REFUND
          amount := order.totalAmount
          reference := "REFUND_" ++ order.orderNumber
          description := "Refund for cancelled order: " ++ order.productName
          balanceBefore := bal
          balanceAfter := bal + order.totalAmount } with
      | .error e => .error e
      | .ok s2 =>
        match findEscrow s2 oid with
        | none => .error .doesNotExist
        | some escrow =>
          let s3 := updateEscrow s2
            { escrow with
                status := .REFUNDED
                refundReference := some ("REFUND_" ++ order.orderNumber) }
          match routineMessage order with
          | .error e => .error e
          | .ok _ =>
            let s4 := createAndSend s3 buyer.uid "ORDER_CANCELLED" (some oid)
            .ok (createAndSend s4 order.seller.uid "ORDER_CANCELLED" (some oid))

/-- `OrderViewSet.cancel` (orders/views.py lines 286-334): resolves the
acting party — the request user must be the order's buyer or seller,
otherwise HTTP 403 — and then calls `OrderService.cancel_order`. -/
def cancel_view (s : DB) (oid : Nat) (requestUser : User) (reason : String) :
    Except Err DB :=
  match findOrder s oid with
  | none => .error .doesNotExist
  | some order =>
    if order.buyer = requestUser then cancel_order s oid .BUYER reason
    else if order.seller = requestUser then cancel_order s oid .SELLER reason
    else .error .permissionDenied

/-! ### Paystack webhook (wallets/views.py, `PaystackWebhookView.post`) -/

/-- The HTTP outcome of the webhook handler. -/
inductive WebhookStatus
  | ok200 | notFound404
deriving DecidableEq, BEq, Repr

/-- Does a wallet row with this id exist (`Wallet.objects.get(id=...)`)? -/
def walletExists (s : DB) (w : Nat) : Bool :=
  s.wallets.any fun x => x.wid == w

/-- The `charge.success` branch of `PaystackWebhookView.post`
(wallets/views.py lines 315-377), after signature verification and metadata
extraction (which involve no database state): lock the wallet, check whether
a ledger row with this `reference` already exists for any wallet — if so,
log and answer success WITHOUT inserting — otherwise insert a CREDIT row and
answer success.  The wallet's `is_active` flag is never consulted.  The email
notification attempt is wrapped in `try/except` and has no database effect
modelled here. -/
def paystack_charge_success (s : DB) (walletId : Nat) (reference : String)
    (amount : Int) : DB × WebhookStatus :=
  if !walletExists s walletId then (s, .notFound404)
  else if referenceExists s reference then (s, .ok200)
  else
    let bal := balance s walletId
    ({ s with txns :=
        { wallet := walletId
          txnType := .CREDIT
          amount := amount
          reference := reference
          description := "Wallet funding via Paystack - " ++ reference
          balanceBefore := bal
          balanceAfter := bal + amount } :: s.txns }, .ok200)

/-! ### Concrete scenario data

A buyer (`alice`) funded with ₦10,000.00, a seller (`bob`) in the same city
whose store sells ₦2,500.00 sneakers with a ₦500.00 within-area delivery fee,
and a bystander (`charlie`).  Amounts are in kobo. -/

def alice : User := { uid := 1, walletId := 11, city := "Ikeja", state := "Lagos" }

def bob : User := { uid := 2, walletId := 22, city := "Ikeja", state := "Lagos" }

def charlie : User := { uid := 3, walletId := 33, city := "Kano", state := "Kano" }

def storeB : Store :=
  { seller := bob, deliveryWithinLga := 50000, deliveryOutsideLga := 100000 }

def prodA : Product := { name := "Sneakers", price := 250000, store := storeB }

def fund1 : TxnRow :=
  { wallet := 11
    txnType := .CREDIT
    amount := 1000000
    reference := "WALLET_FUND_1"
    description := "Wallet funding via Paystack - WALLET_FUND_1"
    balanceBefore := 0
    balanceAfter := 1000000 }

def s0 : DB :=
  { wallets := [⟨11, true⟩, ⟨22, true⟩, ⟨33, true⟩]
    txns := [fund1]
    orders := []
    escrows := []
    notifs := [] }

/-- The order row `create_order_financial` produces on `s0`. -/
def o1 : OrderRow :=
  { oid := 100
    buyer := alice
    seller := bob
    productName := "Sneakers"
    productPrice := 250000
    deliveryFee := 50000
    totalAmount := 300000
    deliveryAddress := "12 Allen Ave"
    status := .PENDING
    cancelledBy := none
    cancellationReason := none }

/-- The state after the financial steps of order creation on `s0`. -/
def s1 : DB :=
  ((create_order_financial s0 alice prodA "12 Allen Ave" "ORD-20251012-AAAAAA"
      100).toOption.getD (s0, o1)).1

/-- State after the seller accepts. -/
def s2 : DB := (accept_order s1 100 bob).toOption.getD s1

/-- State after the seller delivers. -/
def s3 : DB := (deliver_order s2 100 bob).toOption.getD s2

/-- State after the buyer confirms (escrow released). -/
def s4 : DB := (confirm_order s3 100 alice).toOption.getD s3

/-- State after the seller cancels the pending order (escrow refunded). -/
def sCan : DB := (cancel_order s1 100 .SELLER "out of stock").toOption.getD s1

/-- Same as `s0`, but the buyer's wallet is frozen (`is_active=False`). -/
def sFrozen : DB :=
  { s0 with wallets := [⟨11, false⟩, ⟨22, true⟩, ⟨33, true⟩] }

/-- `s4` with the escrow row artificially reset to HELD, to separate
order-status checks from escrow-status checks. -/
def s4heldEscrow : DB :=
  { s4 with escrows := s4.escrows.map fun e => { e with status := .HELD } }

/-- The order row produced by creating on the frozen-wallet state. -/
def oF1 : OrderRow := { o1 with oid := 101, deliveryAddress := "addr" }

/-- The state after the financial creation steps succeed on the
frozen-wallet state. -/
def sF1 : DB :=
  ((create_order_financial sFrozen alice prodA "addr" "ORD-F" 101).toOption.getD
    (sFrozen, oF1)).1

/-! ### Claim C2 — balance derivation -/

/-- The code's two-aggregate balance equals the signed per-row fold. -/
theorem creditsOf_sub_debitsOf (l : List TxnRow) (w : Nat) :
    creditsOf l w - debitsOf l w = signedSum l w := by
  induction l with
  | nil => simp [creditsOf, debitsOf, signedSum]
  | cons t l ih =>
    cases htw : (t.wallet == w) <;> cases ht : t.txnType <;>
      simp [creditsOf, debitsOf, signedSum, signedAmount, isCreditType, isDebitType,
        List.filter_cons, htw, ht] at ih ⊢ <;>
      omega

/-- Claim C2: for every wallet, `Wallet.balance` returns exactly the sum of
its credit-class transactions (CREDIT, ESCROW_RELEASE, REFUND) minus its
debit-class transactions (DEBIT, ESCROW_HOLD, WITHDRAWAL), i.e. the signed
sum over the wallet's full transaction history; a wallet with no
transactions has balance 0.  The state carries no stored balance: `balance`
is recomputed from `DB.txns` on every read (`WalletRow` has no balance
field). -/
theorem balance_is_derived :
    (∀ (s : DB) (w : Nat), balance s w = signedSum s.txns w) ∧
    (∀ (s : DB) (w : Nat),
      s.txns.filter (fun t => t.wallet == w) = [] → balance s w = 0) := by
  constructor
  · intro s w
    exact creditsOf_sub_debitsOf s.txns w
  · intro s w h
    rw [balance, creditsOf_sub_debitsOf, signedSum, h]
    simp

/-- Witness for C2: evaluated on the concrete funded state and on a wallet
with empty history. -/
theorem balance_is_derived_witness :
    balance s0 11 = signedSum s0.txns 11 ∧ balance s0 22 = 0 :=
  ⟨balance_is_derived.1 s0 11, balance_is_derived.2 s0 22 (by decide)⟩

/-! ### Structural lemmas about the table helpers -/

/-- `find?` commutes with a map that does not disturb the predicate. -/
theorem find?_map_of_pred {α : Type} (f : α → α) (p : α → Bool) (l : List α)
    (hp : ∀ x, p (f x) = p x) :
    (l.map f).find? p = (l.find? p).map f := by
  induction l with
  | nil => rfl
  | cons hd tl ih =>
    cases h : p hd with
    | true =>
      rw [List.map_cons, List.find?_cons_of_pos _ (by rw [hp]; exact h),
        List.find?_cons_of_pos _ h, Option.map_some']
    | false =>
      rw [List.map_cons, List.find?_cons_of_neg _ (by simp [hp, h]),
        List.find?_cons_of_neg _ (by simp [h]), ih]

/-- Saving an order row rewrites exactly the rows sharing its primary key. -/
theorem findOrder_updateOrder (s : DB) (o' : OrderRow) (k : Nat) :
    findOrder (updateOrder s o') k =
      (findOrder s k).map fun x => if x.oid == o'.oid then o' else x := by
  unfold findOrder updateOrder
  refine find?_map_of_pred _ _ _ fun x => ?_
  by_cases h : x.oid == o'.oid
  · have hx : x.oid = o'.oid := by simpa using h
    simp [h, hx]
  · simp [h]

/-- Looking up the updated order itself. -/
theorem findOrder_updateOrder_self (s : DB) (o o' : OrderRow) (k : Nat)
    (hf : findOrder s k = some o) (hk : o'.oid = o.oid) :
    findOrder (updateOrder s o') k = some o' := by
  have ho : o.oid = k := by
    have := List.find?_some hf
    simpa using this
  rw [findOrder_updateOrder, hf, Option.map_some']
  simp [hk, ho]

/-- Saving an escrow row rewrites exactly the rows sharing its order key. -/
theorem findEscrow_updateEscrow (s : DB) (e' : EscrowRow) (k : Nat) :
    findEscrow (updateEscrow s e') k =
      (findEscrow s k).map fun x => if x.orderId == e'.orderId then e' else x := by
  unfold findEscrow updateEscrow
  refine find?_map_of_pred _ _ _ fun x => ?_
  by_cases h : x.orderId == e'.orderId
  · have hx : x.orderId = e'.orderId := by simpa using h
    simp [h, hx]
  · simp [h]

/-- Looking up the updated escrow itself. -/
theorem findEscrow_updateEscrow_self (s : DB) (e e' : EscrowRow) (k : Nat)
    (hf : findEscrow s k = some e) (hk : e'.orderId = e.orderId) :
    findEscrow (updateEscrow s e') k = some e' := by
  have he : e.orderId = k := by
    have := List.find?_some hf
    simpa using this
  rw [findEscrow_updateEscrow, hf, Option.map_some']
  simp [hk, he]

theorem updateOrder_txns (s : DB) (o : OrderRow) :
    (updateOrder s o).txns = s.txns := rfl

theorem updateOrder_escrows (s : DB) (o : OrderRow) :
    (updateOrder s o).escrows = s.escrows := rfl

theorem updateEscrow_txns (s : DB) (e : EscrowRow) :
    (updateEscrow s e).txns = s.txns := rfl

theorem updateEscrow_orders (s : DB) (e : EscrowRow) :
    (updateEscrow s e).orders = s.orders := rfl

theorem createAndSend_txns (s : DB) (u : Nat) (n : String) (oid : Option Nat) :
    (createAndSend s u n oid).txns = s.txns := rfl

theorem createAndSend_orders (s : DB) (u : Nat) (n : String) (oid : Option Nat) :
    (createAndSend s u n oid).orders = s.orders := rfl

theorem createAndSend_escrows (s : DB) (u : Nat) (n : String) (oid : Option Nat) :
    (createAndSend s u n oid).escrows = s.escrows := rfl

theorem findOrder_createAndSend (s : DB) (u : Nat) (n : String)
    (oid : Option Nat) (k : Nat) :
    findOrder (createAndSend s u n oid) k = findOrder s k := rfl

theorem findEscrow_createAndSend (s : DB) (u : Nat) (n : String)
    (oid : Option Nat) (k : Nat) :
    findEscrow (createAndSend s u n oid) k = findEscrow s k := rfl

theorem referenceExists_updateOrder (s : DB) (o : OrderRow) (r : String) :
    referenceExists (updateOrder s o) r = referenceExists s r := rfl

theorem findEscrow_set_txns (s : DB) (l : List TxnRow) (k : Nat) :
    findEscrow { s with txns := l } k = findEscrow s k := rfl

theorem findEscrow_updateOrder (s : DB) (o : OrderRow) (k : Nat) :
    findEscrow (updateOrder s o) k = findEscrow s k := rfl

theorem balance_updateOrder (s : DB) (o : OrderRow) (w : Nat) :
    balance (updateOrder s o) w = balance s w := rfl

theorem findOrder_set_txns (s : DB) (l : List TxnRow) (k : Nat) :
    findOrder { s with txns := l } k = findOrder s k := rfl

theorem findOrder_updateEscrow (s : DB) (e : EscrowRow) (k : Nat) :
    findOrder (updateEscrow s e) k = findOrder s k := rfl

theorem referenceExists_createAndSend (s : DB) (u : Nat) (n : String)
    (oid : Option Nat) (r : String) :
    referenceExists (createAndSend s u n oid) r = referenceExists s r := rfl

theorem referenceExists_updateEscrow (s : DB) (e : EscrowRow) (r : String) :
    referenceExists (updateEscrow s e) r = referenceExists s r := rfl

/-! ### Inversion of successful operations -/

/-- Characterization of a successful run of the financial steps of
`OrderService.create_order`. -/
theorem create_order_financial_ok {s : DB} {b : User} {p : Product}
    {a r : String} {oid : Nat} {s1 : DB} {o : OrderRow}
    (h : create_order_financial s b p a r oid = .ok (s1, o)) :
    o = { oid := oid, buyer := b, seller := p.store.seller,
          productName := p.name, productPrice := p.price,
          deliveryFee := deliveryFeeFor b p.store,
          totalAmount := p.price + deliveryFeeFor b p.store,
          deliveryAddress := a, status := .PENDING,
          cancelledBy := none, cancellationReason := none } ∧
    ¬ balance s b.walletId < p.price + deliveryFeeFor b p.store ∧
    referenceExists s r = false ∧
    s1 = { s with
      txns :=
        { wallet := b.walletId, txnType := .DEBIT,
          amount := p.price + deliveryFeeFor b p.store, reference := r,
          description := "Payment for " ++ p.name,
          balanceBefore := balance s b.walletId,
          balanceAfter :=
            balance s b.walletId - (p.price + deliveryFeeFor b p.store) }
          :: s.txns,
      orders := o :: s.orders,
      escrows :=
        { orderId := oid, amount := p.price + deliveryFeeFor b p.store,
          status := .HELD, buyerWallet := b.walletId,
          sellerWallet := p.store.seller.walletId, debitReference := r,
          creditReference := none, refundReference := none } :: s.escrows } := by
  unfold create_order_financial insertTxn insertOrder insertEscrow at h
  by_cases hlt : balance s b.walletId < p.price + deliveryFeeFor b p.store
  · simp [hlt] at h
  · cases hre : referenceExists s r with
    | true => simp [hlt, hre] at h
    | false =>
      cases hord : s.orders.any (fun x => x.oid == oid) with
      | true => simp [hlt, hre, hord] at h
      | false =>
        cases hesc : s.escrows.any (fun x => x.orderId == oid) with
        | true => simp [hlt, hre, hord, hesc] at h
        | false =>
          simp only [hlt, hre, hord, hesc, if_false, if_neg, Bool.false_eq_true,
            if_true, Except.ok.injEq, Prod.mk.injEq] at h
          obtain ⟨hs1, ho⟩ := h
          subst ho
          exact ⟨rfl, hlt, rfl, hs1.symm⟩

/-- Characterization of a successful `OrderService.accept_order`. -/
theorem accept_order_ok {s : DB} {oid : Nat} {u : User} {s' : DB}
    (h : accept_order s oid u = .ok s') :
    ∃ o, findOrder s oid = some o ∧ o.seller = u ∧ o.status = .PENDING ∧
      s' = createAndSend (updateOrder s { o with status := .ACCEPTED })
             o.buyer.uid "ORDER_ACCEPTED" (some oid) := by
  unfold accept_order at h
  cases hfo : findOrder s oid with
  | none => simp [hfo] at h
  | some o =>
    rw [hfo] at h
    by_cases hsel : o.seller ≠ u
    · simp [hsel] at h
    · by_cases hst : o.status ≠ .PENDING
      · simp [hsel, hst] at h
      · simp only [if_neg hsel, if_neg hst, routineMessage,
          Except.ok.injEq] at h
        exact ⟨o, rfl, not_not.mp hsel, not_not.mp hst, h.symm⟩

/-- Characterization of a successful `OrderService.deliver_order`. -/
theorem deliver_order_ok {s : DB} {oid : Nat} {u : User} {s' : DB}
    (h : deliver_order s oid u = .ok s') :
    ∃ o, findOrder s oid = some o ∧ o.seller = u ∧ o.status = .ACCEPTED ∧
      s' = createAndSend (updateOrder s { o with status := .DELIVERED })
             o.buyer.uid "ORDER_DELIVERED" (some oid) := by
  unfold deliver_order at h
  cases hfo : findOrder s oid with
  | none => simp [hfo] at h
  | some o =>
    rw [hfo] at h
    by_cases hsel : o.seller ≠ u
    · simp [hsel] at h
    · by_cases hst : o.status ≠ .ACCEPTED
      · simp [hsel, hst] at h
      · simp only [if_neg hsel, if_neg hst, routineMessage,
          Except.ok.injEq] at h
        exact ⟨o, rfl, not_not.mp hsel, not_not.mp hst, h.symm⟩

/-- Characterization of a successful `OrderService.confirm_order`. -/
theorem confirm_order_ok {s : DB} {oid : Nat} {u : User} {s' : DB}
    (h : confirm_order s oid u = .ok s') :
    ∃ o e, findOrder s oid = some o ∧ o.buyer = u ∧ o.status = .DELIVERED ∧
      referenceExists s ("ESCROW_RELEASE_" ++ o.orderNumber) = false ∧
      findEscrow s oid = some e ∧
      s' = createAndSend
        (updateEscrow
          { updateOrder s { o with status := .CONFIRMED } with
              txns :=
                { wallet := o.seller.walletId, txnType := .ESCROW_RELEASE,
                  amount := o.totalAmount,
                  reference := "ESCROW_RELEASE_" ++ o.orderNumber,
                  description := "Payment received for " ++ o.productName,
                  balanceBefore := balance s o.seller.walletId,
                  balanceAfter := balance s o.seller.walletId + o.totalAmount }
                :: s.txns }
          { e with
              status := .RELEASED,
              creditReference := some ("ESCROW_RELEASE_" ++ o.orderNumber) })
        o.seller.uid "PAYMENT_RECEIVED" (some oid) := by
  unfold confirm_order insertTxn at h
  cases hfo : findOrder s oid with
  | none => simp [hfo] at h
  | some o =>
    rw [hfo] at h
    by_cases hb : o.buyer ≠ u
    · simp [hb] at h
    · by_cases hst : o.status ≠ .DELIVERED
      · simp [hb, hst] at h
      · simp only [if_neg hb, if_neg hst] at h
        cases hre : referenceExists s ("ESCROW_RELEASE_" ++ o.orderNumber) with
        | true =>
          rw [show referenceExists (updateOrder s { o with status := .CONFIRMED })
              ("ESCROW_RELEASE_" ++ o.orderNumber) =
              referenceExists s ("ESCROW_RELEASE_" ++ o.orderNumber) from rfl,
            hre] at h
          simp at h
        | false =>
          rw [show referenceExists (updateOrder s { o with status := .CONFIRMED })
              ("ESCROW_RELEASE_" ++ o.orderNumber) =
              referenceExists s ("ESCROW_RELEASE_" ++ o.orderNumber) from rfl,
            hre] at h
          simp only [Bool.false_eq_true, if_false] at h
          cases hfe : findEscrow s oid with
          | none =>
            rw [show findEscrow
                { updateOrder s { o with status := .CONFIRMED } with
                    txns :=
                      { wallet := o.seller.walletId, txnType := .ESCROW_RELEASE,
                        amount := o.totalAmount,
                        reference := "ESCROW_RELEASE_" ++ o.orderNumber,
                        description := "Payment received for " ++ o.productName,
                        balanceBefore :=
                          balance (updateOrder s { o with status := .CONFIRMED })
                            o.seller.walletId,
                        balanceAfter :=
                          balance (updateOrder s { o with status := .CONFIRMED })
                            o.seller.walletId + o.totalAmount }
                      :: (updateOrder s { o with status := .CONFIRMED }).txns }
                oid = findEscrow s oid from rfl, hfe] at h
            simp at h
          | some e =>
            rw [show findEscrow
                { updateOrder s { o with status := .CONFIRMED } with
                    txns :=
                      { wallet := o.seller.walletId, txnType := .ESCROW_RELEASE,
                        amount := o.totalAmount,
                        reference := "ESCROW_RELEASE_" ++ o.orderNumber,
                        description := "Payment received for " ++ o.productName,
                        balanceBefore :=
                          balance (updateOrder s { o with status := .CONFIRMED })
                            o.seller.walletId,
                        balanceAfter :=
                          balance (updateOrder s { o with status := .CONFIRMED })
                            o.seller.walletId + o.totalAmount }
                      :: (updateOrder s { o with status := .CONFIRMED }).txns }
                oid = findEscrow s oid from rfl, hfe] at h
            simp only [routineMessage, Except.ok.injEq] at h
            exact ⟨o, e, rfl, not_not.mp hb, not_not.mp hst, hre, rfl, h.symm⟩

/-- Characterization of a successful `OrderService.cancel_order`. -/
theorem cancel_order_ok {s : DB} {oid : Nat} {pty : Party} {reason : String}
    {s' : DB} (h : cancel_order s oid pty reason = .ok s') :
    ∃ o e, findOrder s oid = some o ∧
      (match pty with
        | Party.BUYER => o.status == .PENDING
        | Party.SELLER => o.status != .CONFIRMED) = true ∧
      referenceExists s ("REFUND_" ++ o.orderNumber) = false ∧
      findEscrow s oid = some e ∧
      s' = createAndSend
        (createAndSend
          (updateEscrow
            { updateOrder s
                { o with
                    status := .CANCELLED, cancelledBy := some pty,
                    cancellationReason := some reason } with
                txns :=
                  { wallet := o.buyer.walletId, txnType := .REFUND,
                    amount := o.totalAmount,
                    reference := "REFUND_" ++ o.orderNumber,
                    description := "Refund for cancelled order: " ++ o.productName,
                    balanceBefore := balance s o.buyer.walletId,
                    balanceAfter := balance s o.buyer.walletId + o.totalAmount }
                  :: s.txns }
            { e with
                status := .REFUNDED,
                refundReference := some ("REFUND_" ++ o.orderNumber) })
          o.buyer.uid "ORDER_CANCELLED" (some oid))
        o.seller.uid "ORDER_CANCELLED" (some oid) := by
  unfold cancel_order insertTxn at h
  cases hfo : findOrder s oid with
  | none => simp [hfo] at h
  | some o =>
    rw [hfo] at h
    cases pty with
    | BUYER =>
      cases hst : (o.status == OrderStatus.PENDING) with
      | false => simp [hst] at h
      | true =>
        simp only [hst, Bool.not_true, Bool.false_eq_true, if_false] at h
        rw [referenceExists_updateOrder, balance_updateOrder, updateOrder_txns] at h
        cases hre : referenceExists s ("REFUND_" ++ o.orderNumber) with
        | true => rw [hre] at h; simp at h
        | false =>
          rw [hre] at h
          simp only [Bool.false_eq_true, if_false] at h
          rw [findEscrow_set_txns, findEscrow_updateOrder] at h
          cases hfe : findEscrow s oid with
          | none => rw [hfe] at h; simp at h
          | some e =>
            rw [hfe] at h
            simp only [routineMessage, Except.ok.injEq] at h
            exact ⟨o, e, rfl, hst, hre, rfl, h.symm⟩
    | SELLER =>
      cases hst : (o.status != OrderStatus.CONFIRMED) with
      | false => simp [hst] at h
      | true =>
        simp only [hst, Bool.not_true, Bool.false_eq_true, if_false] at h
        rw [referenceExists_updateOrder, balance_updateOrder, updateOrder_txns] at h
        cases hre : referenceExists s ("REFUND_" ++ o.orderNumber) with
        | true => rw [hre] at h; simp at h
        | false =>
          rw [hre] at h
          simp only [Bool.false_eq_true, if_false] at h
          rw [findEscrow_set_txns, findEscrow_updateOrder] at h
          cases hfe : findEscrow s oid with
          | none => rw [hfe] at h; simp at h
          | some e =>
            rw [hfe] at h
            simp only [routineMessage, Except.ok.injEq] at h
            exact ⟨o, e, rfl, hst, hre, rfl, h.symm⟩

/-- Saving an order that keeps its `total_amount` leaves every order's
`total_amount` unchanged, viewed through primary-key lookup. -/
theorem totals_updateOrder (s : DB) (o o' : OrderRow) (oid : Nat)
    (hf : findOrder s oid = some o) (hk : o'.oid = o.oid)
    (ht : o'.totalAmount = o.totalAmount) (k : Nat) :
    (findOrder (updateOrder s o') k).map OrderRow.totalAmount
      = (findOrder s k).map OrderRow.totalAmount := by
  rw [findOrder_updateOrder]
  cases hfk : findOrder s k with
  | none => rfl
  | some x =>
    simp only [Option.map_some']
    by_cases hx : x.oid == o'.oid
    · have hxe : x.oid = o'.oid := by simpa using hx
      have hxk : x.oid = k := by simpa using List.find?_some hfk
      have hoid : o.oid = oid := by simpa using List.find?_some hf
      have hko : k = oid := by rw [← hxk, hxe, hk, hoid]
      rw [hko] at hfk
      rw [hf] at hfk
      obtain rfl := (Option.some.injEq _ _).mp hfk
      simp [hx, ht]
    · simp [hx]

/-! ### Claim C1 — conservation of value -/

/-- Claim C1: the buyer-wallet debit appended at order creation, the
seller-wallet credit appended at confirmation, and the buyer-wallet refund
appended at cancellation each equal the order's `total_amount` exactly (and
so does the escrow's held amount); `accept_order` and `deliver_order` leave
every order's `total_amount` untouched, so the creation debit always equals
the later release credit or refund. -/
theorem conservation_of_value :
    (∀ (s : DB) (b : User) (p : Product) (a r : String) (oid : Nat)
        (s1 : DB) (o : OrderRow),
      create_order_financial s b p a r oid = .ok (s1, o) →
      ∃ t es, s1.txns = t :: s.txns ∧ s1.escrows = es :: s.escrows ∧
        t.wallet = b.walletId ∧ t.txnType = .DEBIT ∧
        t.amount = o.totalAmount ∧ es.amount = o.totalAmount) ∧
    (∀ (s : DB) (oid : Nat) (u : User) (s' : DB) (o : OrderRow),
      confirm_order s oid u = .ok s' → findOrder s oid = some o →
      ∃ t, s'.txns = t :: s.txns ∧ t.wallet = o.seller.walletId ∧
        t.txnType = .ESCROW_RELEASE ∧ t.amount = o.totalAmount) ∧
    (∀ (s : DB) (oid : Nat) (pty : Party) (reason : String) (s' : DB)
        (o : OrderRow),
      cancel_order s oid pty reason = .ok s' → findOrder s oid = some o →
      ∃ t, s'.txns = t :: s.txns ∧ t.wallet = o.buyer.walletId ∧
        t.txnType = .REFUND ∧ t.amount = o.totalAmount) ∧
    (∀ (s : DB) (oid : Nat) (u : User) (s' : DB),
      accept_order s oid u = .ok s' →
      ∀ k, (findOrder s' k).map OrderRow.totalAmount
        = (findOrder s k).map OrderRow.totalAmount) ∧
    (∀ (s : DB) (oid : Nat) (u : User) (s' : DB),
      deliver_order s oid u = .ok s' →
      ∀ k, (findOrder s' k).map OrderRow.totalAmount
        = (findOrder s k).map OrderRow.totalAmount) := by
  refine ⟨?_, ?_, ?_, ?_, ?_⟩
  · intro s b p a r oid s1 o h
    obtain ⟨ho, _, _, hs1⟩ := create_order_financial_ok h
    subst hs1
    subst ho
    exact ⟨_, _, rfl, rfl, rfl, rfl, rfl, rfl⟩
  · intro s oid u s' o h hfo
    obtain ⟨o', e, hfo', hb, hst, hre, hfe, hs'⟩ := confirm_order_ok h
    rw [hfo] at hfo'
    obtain rfl := (Option.some.injEq _ _).mp hfo'
    subst hs'
    exact ⟨_, rfl, rfl, rfl, rfl⟩
  · intro s oid pty reason s' o h hfo
    obtain ⟨o', e, hfo', hok, hre, hfe, hs'⟩ := cancel_order_ok h
    rw [hfo] at hfo'
    obtain rfl := (Option.some.injEq _ _).mp hfo'
    subst hs'
    exact ⟨_, rfl, rfl, rfl, rfl⟩
  · intro s oid u s' h k
    obtain ⟨o, hfo, _, _, hs'⟩ := accept_order_ok h
    subst hs'
    rw [findOrder_createAndSend]
    exact totals_updateOrder s o { o with status := .ACCEPTED } oid hfo rfl rfl k
  · intro s oid u s' h k
    obtain ⟨o, hfo, _, _, hs'⟩ := deliver_order_ok h
    subst hs'
    rw [findOrder_createAndSend]
    exact totals_updateOrder s o { o with status := .DELIVERED } oid hfo rfl rfl k

/-- Witness for C1: the concrete full lifecycle — creation debit of
₦3,000.00, the release credit after confirm, the refund after a seller
cancellation, and `total_amount` stability across accept/deliver. -/
theorem conservation_of_value_witness :
    (∃ t es, s1.txns = t :: s0.txns ∧ s1.escrows = es :: s0.escrows ∧
      t.wallet = alice.walletId ∧ t.txnType = .DEBIT ∧
      t.amount = o1.totalAmount ∧ es.amount = o1.totalAmount) ∧
    (∃ t, s4.txns = t :: s3.txns ∧
      t.wallet = ({ o1 with status := .DELIVERED } : OrderRow).seller.walletId ∧
      t.txnType = .ESCROW_RELEASE ∧
      t.amount = ({ o1 with status := .DELIVERED } : OrderRow).totalAmount) ∧
    (∃ t, sCan.txns = t :: s1.txns ∧ t.wallet = o1.buyer.walletId ∧
      t.txnType = .REFUND ∧ t.amount = o1.totalAmount) ∧
    (findOrder s2 100).map OrderRow.totalAmount
      = (findOrder s1 100).map OrderRow.totalAmount ∧
    (findOrder s3 100).map OrderRow.totalAmount
      = (findOrder s2 100).map OrderRow.totalAmount :=
  ⟨conservation_of_value.1 s0 alice prodA "12 Allen Ave" "ORD-20251012-AAAAAA"
      100 s1 o1 rfl,
    conservation_of_value.2.1 s3 100 alice s4 { o1 with status := .DELIVERED }
      rfl rfl,
    conservation_of_value.2.2.1 s1 100 .SELLER "out of stock" sCan o1 rfl rfl,
    conservation_of_value.2.2.2.1 s1 100 bob s2 rfl 100,
    conservation_of_value.2.2.2.2 s2 100 bob s3 rfl 100⟩

/-! ### Claim C3 — insufficient funds reject before any mutation -/

/-- Claim C3: when the buyer's balance is strictly below product price plus
delivery fee, `create_order` fails with `InsufficientFundsError` before any
write: the balance check precedes the debit insert, the `Order` insert and
the `EscrowTransaction` insert, and the `@transaction.atomic` scope
(modelled by the `Except` result carrying no state) leaves the database
exactly as it was. -/
theorem insufficient_funds_atomic (s : DB) (b : User) (p : Product)
    (a r : String) (oid : Nat)
    (h : balance s b.walletId < p.price + deliveryFeeFor b p.store) :
    create_order s b p a r oid = .error .insufficientFunds ∧
    create_order_financial s b p a r oid = .error .insufficientFunds := by
  have hf : create_order_financial s b p a r oid = .error .insufficientFunds := by
    unfold create_order_financial
    simp [h]
  refine ⟨?_, hf⟩
  unfold create_order
  rw [hf]

/-- Witness for C3: `charlie` has an empty wallet and orders a ₦3,500.00
total (cross-city fee tier). -/
theorem insufficient_funds_atomic_witness :
    create_order s0 charlie prodA "1 Kano Rd" "ORD-C" 200
        = .error .insufficientFunds ∧
    create_order_financial s0 charlie prodA "1 Kano Rd" "ORD-C" 200
        = .error .insufficientFunds :=
  insufficient_funds_atomic s0 charlie prodA "1 Kano Rd" "ORD-C" 200 (by decide)

/-! ### Claim C4 — no double release/refund -/

/-- Counterexample for C4 as stated: the second settlement attempt does NOT
fail through an escrow-status check.  There is no `InvalidEscrowState` error
kind anywhere in the source (`Err` enumerates every exception the translated
code raises), `confirm_order`/`cancel_order` never read `escrow.status`, and
concretely: a second confirm fails with `InvalidOrderStatusError` — and
still does so when the escrow row is artificially reset to HELD
(`s4heldEscrow`), proving the guard is the ORDER status; a second seller
cancellation even passes validation and only dies on the duplicate
`REFUND_<order_number>` ledger reference (`IntegrityError`). -/
theorem no_invalid_escrow_state_check :
    confirm_order s3 100 alice = .ok s4 ∧
    confirm_order s4 100 alice = .error .invalidOrderStatus ∧
    (findEscrow s4heldEscrow 100).map EscrowRow.status = some .HELD ∧
    confirm_order s4heldEscrow 100 alice = .error .invalidOrderStatus ∧
    cancel_order s1 100 .SELLER "out of stock" = .ok sCan ∧
    cancel_order sCan 100 .SELLER "again" = .error .integrityError :=
  ⟨rfl, rfl, rfl, rfl, rfl, rfl⟩

/-- Claim C4 as amended: a second settlement of the same order always fails
and the ledger is credited exactly once — but through the order-status
validation (`InvalidOrderStatusError`), not an escrow-status check, and a
repeated SELLER cancellation fails only on the duplicate refund reference
(`IntegrityError`); the escrow ends RELEASED after a confirm and REFUNDED
after a cancel, never both, because every second attempt is rejected (and,
being inside `@transaction.atomic`, leaves no trace). -/
theorem no_double_settlement :
    (∀ (s : DB) (oid : Nat) (u : User) (s₁ : DB),
      confirm_order s oid u = .ok s₁ →
      (∃ t, s₁.txns = t :: s.txns ∧ t.txnType = .ESCROW_RELEASE) ∧
      confirm_order s₁ oid u = .error .invalidOrderStatus ∧
      (∀ r, cancel_order s₁ oid .SELLER r = .error .invalidOrderStatus) ∧
      (∀ r, cancel_order s₁ oid .BUYER r = .error .invalidOrderStatus) ∧
      (findEscrow s₁ oid).map EscrowRow.status = some .RELEASED) ∧
    (∀ (s : DB) (oid : Nat) (pty : Party) (reason : String) (s₂ : DB)
        (o : OrderRow),
      cancel_order s oid pty reason = .ok s₂ → findOrder s oid = some o →
      (∃ t, s₂.txns = t :: s.txns ∧ t.txnType = .REFUND) ∧
      confirm_order s₂ oid o.buyer = .error .invalidOrderStatus ∧
      (∀ r, cancel_order s₂ oid .BUYER r = .error .invalidOrderStatus) ∧
      (∀ r, cancel_order s₂ oid .SELLER r = .error .integrityError) ∧
      (findEscrow s₂ oid).map EscrowRow.status = some .REFUNDED) := by
  constructor
  · intro s oid u s₁ h
    obtain ⟨o, e, hfo, hb, hst, hre, hfe, hs₁⟩ := confirm_order_ok h
    have hfind1 : findOrder s₁ oid = some { o with status := .CONFIRMED } := by
      rw [hs₁, findOrder_createAndSend, findOrder_updateEscrow,
        findOrder_set_txns]
      exact findOrder_updateOrder_self s o _ oid hfo rfl
    have hfesc1 : findEscrow s₁ oid = some
        { e with
            status := .RELEASED,
            creditReference := some ("ESCROW_RELEASE_" ++ o.orderNumber) } := by
      rw [hs₁, findEscrow_createAndSend]
      have : findEscrow
          { updateOrder s { o with status := .CONFIRMED } with
              txns :=
                { wallet := o.seller.walletId, txnType := .ESCROW_RELEASE,
                  amount := o.totalAmount,
                  reference := "ESCROW_RELEASE_" ++ o.orderNumber,
                  description := "Payment received for " ++ o.productName,
                  balanceBefore := balance s o.seller.walletId,
                  balanceAfter := balance s o.seller.walletId + o.totalAmount }
                :: s.txns } oid = some e := hfe
      exact findEscrow_updateEscrow_self _ e _ oid this rfl
    refine ⟨⟨_, by rw [hs₁]; rfl, rfl⟩, ?_, ?_, ?_, by rw [hfesc1]; rfl⟩
    · unfold confirm_order
      rw [hfind1]
      simp +decide [hb]
    · intro r
      unfold cancel_order
      rw [hfind1]
      simp +decide
    · intro r
      unfold cancel_order
      rw [hfind1]
      simp +decide
  · intro s oid pty reason s₂ o h hfo0
    obtain ⟨o', e, hfo, hok, hre, hfe, hs₂⟩ := cancel_order_ok h
    rw [hfo0] at hfo
    obtain rfl := (Option.some.injEq _ _).mp hfo
    have hfind2 : findOrder s₂ oid = some
        { o with
            status := .CANCELLED, cancelledBy := some pty,
            cancellationReason := some reason } := by
      rw [hs₂, findOrder_createAndSend, findOrder_createAndSend,
        findOrder_updateEscrow, findOrder_set_txns]
      exact findOrder_updateOrder_self s o _ oid hfo0 rfl
    have hfesc2 : findEscrow s₂ oid = some
        { e with
            status := .REFUNDED,
            refundReference := some ("REFUND_" ++ o.orderNumber) } := by
      rw [hs₂, findEscrow_createAndSend, findEscrow_createAndSend]
      have : findEscrow
          { updateOrder s
              { o with
                  status := .CANCELLED, cancelledBy := some pty,
                  cancellationReason := some reason } with
              txns :=
                { wallet := o.buyer.walletId, txnType := .REFUND,
                  amount := o.totalAmount,
                  reference := "REFUND_" ++ o.orderNumber,
                  description := "Refund for cancelled order: " ++ o.productName,
                  balanceBefore := balance s o.buyer.walletId,
                  balanceAfter := balance s o.buyer.walletId + o.totalAmount }
                :: s.txns } oid = some e := hfe
      exact findEscrow_updateEscrow_self _ e _ oid this rfl
    have hrefex : referenceExists s₂ ("REFUND_" ++ o.orderNumber) = true := by
      rw [hs₂, referenceExists_createAndSend, referenceExists_createAndSend,
        referenceExists_updateEscrow]
      simp [referenceExists]
    refine ⟨⟨_, by rw [hs₂]; rfl, rfl⟩, ?_, ?_, ?_, by rw [hfesc2]; rfl⟩
    · unfold confirm_order
      rw [hfind2]
      simp +decide
    · intro r
      unfold cancel_order
      rw [hfind2]
      simp +decide
    · intro r
      unfold cancel_order insertTxn
      rw [hfind2]
      simp only [OrderRow.orderNumber] at hrefex
      simp +decide [OrderRow.orderNumber, referenceExists_updateOrder, hrefex]

/-- Witness for C4 (amended): evaluated on the concrete confirmed and
cancelled runs. -/
theorem no_double_settlement_witness :
    (confirm_order s4 100 alice = .error .invalidOrderStatus ∧
      (findEscrow s4 100).map EscrowRow.status = some .RELEASED) ∧
    (cancel_order sCan 100 .SELLER "retry" = .error .integrityError ∧
      (findEscrow sCan 100).map EscrowRow.status = some .REFUNDED) :=
  ⟨⟨(no_double_settlement.1 s3 100 alice s4 rfl).2.1,
    (no_double_settlement.1 s3 100 alice s4 rfl).2.2.2.2⟩,
    ⟨(no_double_settlement.2 s1 100 .SELLER "out of stock" sCan o1 rfl
        rfl).2.2.2.1 "retry",
      (no_double_settlement.2 s1 100 .SELLER "out of stock" sCan o1 rfl
        rfl).2.2.2.2⟩⟩

/-! ### Claim C5 — CONFIRMED/CANCELLED as absorbing states -/

/-- Evaluation of C5 at its failing input: on the concretely CANCELLED order
(`sCan`), accept, deliver, confirm and a buyer cancel all fail with
`InvalidOrderStatusError` as claimed — but a SELLER cancel does not: the
service's validation only rejects `status == "CONFIRMED"`, so it passes a
CANCELLED order (contradicting the model's own `Order.can_seller_cancel`,
which is false here), proceeds into a second refund, and only the duplicate
`REFUND_<order_number>` reference makes the database abort with
`IntegrityError` — not the claimed `InvalidStateTransition` validation
error.  The atomic rollback (an `.error` result carries no state) is what
keeps the ledger unchanged. -/
theorem cancelled_not_absorbing_for_seller_cancel :
    (findOrder sCan 100).map OrderRow.status = some .CANCELLED ∧
    (findOrder sCan 100).map can_seller_cancel = some false ∧
    accept_order sCan 100 bob = .error .invalidOrderStatus ∧
    deliver_order sCan 100 bob = .error .invalidOrderStatus ∧
    confirm_order sCan 100 alice = .error .invalidOrderStatus ∧
    cancel_order sCan 100 .BUYER "changed my mind" = .error .invalidOrderStatus ∧
    cancel_order sCan 100 .SELLER "duplicate click" = .error .integrityError ∧
    (findOrder s4 100).map OrderRow.status = some .CONFIRMED ∧
    accept_order s4 100 bob = .error .invalidOrderStatus ∧
    deliver_order s4 100 bob = .error .invalidOrderStatus ∧
    confirm_order s4 100 alice = .error .invalidOrderStatus ∧
    cancel_order s4 100 .BUYER "late regret" = .error .invalidOrderStatus ∧
    cancel_order s4 100 .SELLER "late regret" = .error .invalidOrderStatus :=
  ⟨rfl, rfl, rfl, rfl, rfl, rfl, rfl, rfl, rfl, rfl, rfl, rfl, rfl⟩

/-! ### Claim C6 — idempotent ledger append (webhook replay) -/

/-- Claim C6: replaying a `charge.success` webhook whose reference already
exists on any wallet inserts no second row and surfaces no error — the
handler answers plain success (HTTP 200) and leaves the database untouched,
so a retried payment webhook is a no-op. -/
theorem duplicate_reference_is_noop (s : DB) (wid : Nat) (reference : String)
    (amount : Int) (hw : walletExists s wid = true)
    (hr : referenceExists s reference = true) :
    paystack_charge_success s wid reference amount = (s, .ok200) := by
  unfold paystack_charge_success
  simp [hw, hr]

/-- Witness for C6: replaying the funding reference already present in `s0`
(with a different amount, as a corrupted retry would) changes nothing. -/
theorem duplicate_reference_is_noop_witness :
    paystack_charge_success s0 11 "WALLET_FUND_1" 77700 = (s0, .ok200) :=
  duplicate_reference_is_noop s0 11 "WALLET_FUND_1" 77700 (by decide) (by decide)

/-! ### Claim C7 — frozen-wallet rule -/

/-- Evaluation of C7 at its failing input: `alice`'s wallet is frozen
(`is_active=False`) in `sFrozen`, so `Wallet.can_debit` is false — yet
`create_order`'s financial steps succeed and append a DEBIT row to the
frozen wallet, because the service checks only the balance and never the
active flag (`can_debit` has no caller).  No `WalletInactive` error kind
exists in the source.  The claim's second half does hold: a credit (the
webhook's CREDIT insert) also ignores the flag and succeeds. -/
theorem frozen_wallet_still_debited :
    can_debit sFrozen ⟨11, false⟩ 300000 = false ∧
    create_order_financial sFrozen alice prodA "addr" "ORD-F" 101
        = .ok (sF1, oF1) ∧
    sF1.txns.head? = some
      { wallet := 11, txnType := .DEBIT, amount := 300000,
        reference := "ORD-F", description := "Payment for Sneakers",
        balanceBefore := 1000000, balanceAfter := 700000 } ∧
    (paystack_charge_success sFrozen 11 "PSREF_1" 50000).2 = .ok200 ∧
    (paystack_charge_success sFrozen 11 "PSREF_1" 50000).1.txns.head? = some
      { wallet := 11, txnType := .CREDIT, amount := 50000,
        reference := "PSREF_1",
        description := "Wallet funding via Paystack - PSREF_1",
        balanceBefore := 1000000, balanceAfter := 1050000 } :=
  ⟨rfl, rfl, rfl, rfl, rfl⟩

/-! ### Claim C8 — permission enforcement -/

/-- Claim C8, per operation and for every actor: accept and deliver fail
with `PermissionDeniedError` for ANY actor other than the order's seller
(the buyer included), confirm fails with `PermissionDeniedError` for ANY
actor other than the order's buyer (the seller included — a seller cannot
self-release the escrow), and the cancel endpoint rejects with HTTP 403 any
actor who is neither buyer nor seller before ever calling the service.  In
each case the ownership check precedes every mutation and the `.error`
outcome carries no state, so nothing is written on the denied attempt. -/
theorem permission_enforcement (s : DB) (oid : Nat) (o : OrderRow) (u : User)
    (reason : String) (ho : findOrder s oid = some o) :
    (u ≠ o.seller → accept_order s oid u = .error .permissionDenied) ∧
    (u ≠ o.seller → deliver_order s oid u = .error .permissionDenied) ∧
    (u ≠ o.buyer → confirm_order s oid u = .error .permissionDenied) ∧
    (u ≠ o.buyer → u ≠ o.seller →
      cancel_view s oid u reason = .error .permissionDenied) := by
  refine ⟨?_, ?_, ?_, ?_⟩
  · intro hs
    unfold accept_order
    rw [ho]
    exact if_pos (Ne.symm hs)
  · intro hs
    unfold deliver_order
    rw [ho]
    exact if_pos (Ne.symm hs)
  · intro hb
    unfold confirm_order
    rw [ho]
    exact if_pos (Ne.symm hb)
  · intro hb hs
    unfold cancel_view
    rw [ho]
    show (if o.buyer = u then cancel_order s oid Party.BUYER reason
      else if o.seller = u then cancel_order s oid Party.SELLER reason
      else Except.error Err.permissionDenied) = Except.error Err.permissionDenied
    rw [if_neg (Ne.symm hb), if_neg (Ne.symm hs)]

/-- Witness for C8, one concrete denial per clause: the buyer `alice`
attempting accept and deliver, the seller `bob` attempting confirm, and the
bystander `charlie` attempting cancel on order 100. -/
theorem permission_enforcement_witness :
    accept_order s1 100 alice = .error .permissionDenied ∧
    deliver_order s1 100 alice = .error .permissionDenied ∧
    confirm_order s1 100 bob = .error .permissionDenied ∧
    cancel_view s1 100 charlie "not mine" = .error .permissionDenied :=
  ⟨(permission_enforcement s1 100 o1 alice "not mine" rfl).1 (by decide),
    (permission_enforcement s1 100 o1 alice "not mine" rfl).2.1 (by decide),
    (permission_enforcement s1 100 o1 bob "not mine" rfl).2.2.1 (by decide),
    (permission_enforcement s1 100 o1 charlie "not mine" rfl).2.2.2
      (by decide) (by decide)⟩

/-! ### Claim C9 — notification decoupling -/

/-- Evaluation of C9 at its failing input: on a perfectly valid creation
(sufficient balance — the financial steps alone succeed), the full
`create_order` fails with `AttributeError`, because
`send_order_created_notification` reads the nonexistent
`order.delivery_message` while building the seller's message; the exception
escapes `NotificationService` (only `_create_and_send`'s SENDING is wrapped
in try/except, not the message construction), propagates into the
`@transaction.atomic` block, and rolls back the already-performed
debit/order/escrow writes. -/
theorem notification_failure_rolls_back_creation :
    create_order_financial s0 alice prodA "12 Allen Ave" "ORD-20251012-AAAAAA"
        100 = .ok (s1, o1) ∧
    send_order_created_notification s1 o1.seller o1 = .error .attributeError ∧
    create_order s0 alice prodA "12 Allen Ave" "ORD-20251012-AAAAAA" 100
        = .error .attributeError :=
  ⟨rfl, rfl, rfl⟩

/-! ### Claim C10 — at-most-once debit per idempotency key -/

/-- Claim C10: with the generated order-number reference modelled as an
explicit input (the date-stamp-plus-random draw), running the creation debit
twice with the same reference yields exactly one debit-class ledger row on
the buyer's wallet: the second call always fails — with
`InsufficientFundsError` if the first debit drained the balance, otherwise
with the unique-reference `IntegrityError` at the debit insert — and, being
atomic, writes nothing. -/
theorem at_most_once_debit (s : DB) (b : User) (p p2 : Product)
    (a a2 r : String) (oid oid2 : Nat) (s1 : DB) (o : OrderRow)
    (h : create_order_financial s b p a r oid = .ok (s1, o)) :
    (∃ e, create_order_financial s1 b p2 a2 r oid2 = .error e) ∧
    (s1.txns.filter fun t =>
        t.wallet == b.walletId && t.reference == r
          && isDebitType t.txnType).length = 1 := by
  obtain ⟨ho, hlt, hre, hs1⟩ := create_order_financial_ok h
  have hex : referenceExists s1 r = true := by
    rw [hs1]
    simp [referenceExists]
  have htail : (s.txns.filter fun t =>
      t.wallet == b.walletId && t.reference == r
        && isDebitType t.txnType) = [] := by
    rw [List.filter_eq_nil_iff]
    intro t ht
    have hnr : (t.reference == r) = false := by
      unfold referenceExists at hre
      rw [List.any_eq_false] at hre
      simpa using hre t ht
    simp [hnr]
  constructor
  · by_cases h2 : balance s1 b.walletId < p2.price + deliveryFeeFor b p2.store
    · refine ⟨.insufficientFunds, ?_⟩
      unfold create_order_financial
      simp [h2]
    · refine ⟨.integrityError, ?_⟩
      unfold create_order_financial insertTxn
      simp [h2, hex]
  · rw [hs1]
    simp [List.filter_cons, isDebitType]
    intro t ht h1 h2
    unfold referenceExists at hre
    rw [List.any_eq_false] at hre
    have hf := hre t ht
    simp [h2] at hf

/-- Witness for C10: replaying the creation of order 100 with the same
reference on the post-creation state fails and leaves exactly the one debit
row. -/
theorem at_most_once_debit_witness :
    (∃ e, create_order_financial s1 alice prodA "12 Allen Ave"
        "ORD-20251012-AAAAAA" 101 = .error e) ∧
    (s1.txns.filter fun t =>
        t.wallet == alice.walletId && t.reference == "ORD-20251012-AAAAAA"
          && isDebitType t.txnType).length = 1 :=
  at_most_once_debit s0 alice prodA prodA "12 Allen Ave" "12 Allen Ave"
    "ORD-20251012-AAAAAA" 100 101 s1 o1 rfl

end Covu
